import Mathlib

/-!
Shallow embedding of the `Carousel` React component
(`src/components/Carousel/Carousel.tsx`) of the react-carousel repository.

The component keeps its interaction state in React state hooks and refs
(`currentIndex`/`currentIndexRef`, `isDragging`/`isDraggingRef`,
`hasMoved`, `isTransitioning`, `startX`, `currentTranslate`,
`prevTranslate`, `autoSlideTimer`).  Each state/ref pair is kept in sync
by the component, so the embedding holds a single field per logical
variable.  Pixel quantities and indices are embedded as `Int`.

`getSlideWidth` measures the DOM (with a constant fallback); every
handler that reads it takes the measured width `w : Int` as a parameter.
The track element is modelled as mounted (the `trackRef.current` null
checks never fire while the component is rendered).  The auto-advance
interval handle is modelled by an id-valued ref `timerRef` together with
a set `liveTimers` of intervals that have been created and not yet
cleared, and a fresh-id counter; `setInterval` allocates a fresh id and
`clearInterval` removes one.  Clone count `CLONE_COUNT` and the source
item count `items.length` enter as parameters `K` and `N`.
-/

/-- `CarouselItem` from `config/carousel.types.ts`; `landing_page?: string`
becomes an optional string. -/
structure CarouselItem where
  id : Int
  title : String
  image : String
  landing_page : Option String
deriving DecidableEq, Repr

/-- The padded sequence built at render time:
`[...items.slice(-CLONE_COUNT), ...items, ...items.slice(0, CLONE_COUNT)]`.
JS `slice(-K)` keeps the last `K` elements (the whole list when shorter),
which is `drop (length - K)` with truncated subtraction; `slice(0, K)` is
`take K`. -/
def clonedItems (items : List CarouselItem) (K : Nat) : List CarouselItem :=
  items.drop (items.length - K) ++ items ++ items.take K

/-- Interaction-controller state of the component (state hooks, refs and
the interval resource). -/
structure CarouselState where
  currentIndex : Int
  isDragging : Bool
  hasMoved : Bool
  isTransitioning : Bool
  startX : Int
  currentTranslate : Int
  prevTranslate : Int
  timerRef : Option Nat
  liveTimers : List Nat
  nextTimerId : Nat
deriving DecidableEq, Repr

/-- Initial hook/ref values: `useState(CLONE_COUNT)` for the index, all
flags false, pixel refs zero, no timer. -/
def initState (K : Nat) : CarouselState :=
  { currentIndex := (K : Int)
    isDragging := false
    hasMoved := false
    isTransitioning := false
    startX := 0
    currentTranslate := 0
    prevTranslate := 0
    timerRef := none
    liveTimers := []
    nextTimerId := 0 }

/-- `startAutoSlide`: `if (autoSlideTimer.current) clearInterval(...)`,
then `autoSlideTimer.current = setInterval(nextSlide, AUTO_SLIDE_INTERVAL)`.
Clearing removes the old interval from the live set; `setInterval`
allocates a fresh id. -/
def startAutoSlide (s : CarouselState) : CarouselState :=
  { s with
    liveTimers :=
      (match s.timerRef with
        | some t => s.liveTimers.erase t
        | none => s.liveTimers) ++ [s.nextTimerId]
    timerRef := some s.nextTimerId
    nextTimerId := s.nextTimerId + 1 }

/-- `stopAutoSlide`: clear the interval and null the ref when one is
held, otherwise do nothing. -/
def stopAutoSlide (s : CarouselState) : CarouselState :=
  match s.timerRef with
  | some t => { s with liveTimers := s.liveTimers.erase t, timerRef := none }
  | none => s

/-- `nextSlide` (the interval callback): guarded by
`isDraggingRef.current || isTransitioning`; otherwise marks the
transition, advances the index by one and moves both translate refs to
`-next * slideWidth`. -/
def nextSlide (w : Int) (s : CarouselState) : CarouselState :=
  if s.isDragging || s.isTransitioning then s
  else
    let next := s.currentIndex + 1
    { s with
      isTransitioning := true
      currentIndex := next
      currentTranslate := -next * w
      prevTranslate := -next * w }

/-- `handleTransitionEnd`: clears `isTransitioning`, then rewrites the
index when it sits on a clone — `index >= items.length + CLONE_COUNT`
maps to `CLONE_COUNT + (index - items.length - CLONE_COUNT)` and (on the
possibly already rewritten value) `index < CLONE_COUNT` maps to
`items.length + index` — updating `currentTranslate` alongside, and
finally copies `currentTranslate` into `prevTranslate`.  The remaining
statements only touch the DOM (transition suppression for one reflow). -/
def handleTransitionEnd (N K : Nat) (w : Int) (s : CarouselState) : CarouselState :=
  let s0 := { s with isTransitioning := false }
  let s1 :=
    if (N : Int) + K ≤ s0.currentIndex then
      let realIndex := (K : Int) + (s0.currentIndex - N - K)
      { s0 with currentIndex := realIndex, currentTranslate := -realIndex * w }
    else s0
  let s2 :=
    if s1.currentIndex < (K : Int) then
      let realIndex := (N : Int) + s1.currentIndex
      { s1 with currentIndex := realIndex, currentTranslate := -realIndex * w }
    else s1
  { s2 with prevTranslate := s2.currentTranslate }

/-- `handleMouseDown`: ignored while `isTransitioning`; otherwise starts
a drag session (sets the dragging flag, resets `hasMoved`, records the
pointer x) and stops the auto-slide timer.  The remaining statements
register DOM listeners and toggle a CSS class. -/
def handleMouseDown (x : Int) (s : CarouselState) : CarouselState :=
  if s.isTransitioning then s
  else
    stopAutoSlide { s with isDragging := true, hasMoved := false, startX := x }

/-- `handleMouseMove`: ignored unless dragging; computes
`deltaX = clientX - startX`, sets `hasMoved` once `|deltaX| > 5`, and
moves `currentTranslate` to `prevTranslate + deltaX`. -/
def handleMouseMove (x : Int) (s : CarouselState) : CarouselState :=
  if !s.isDragging then s
  else
    let deltaX := x - s.startX
    let s1 := if 5 < |deltaX| then { s with hasMoved := true } else s
    { s1 with currentTranslate := s1.prevTranslate + deltaX }

/-- `handleMouseUp`: ignored unless dragging; ends the drag session,
compares `deltaX = currentTranslate - prevTranslate` against the 40px
commit threshold (`Math.abs(deltaX) >= 40`): on commit moves the index
by one (`deltaX > 0` decrements, else increments), sets
`currentTranslate = -next * slideWidth` and enters the transition;
otherwise snaps `currentTranslate` back to `prevTranslate`.  Either way
`prevTranslate` is then synced and the auto-slide timer restarted. -/
def handleMouseUp (w : Int) (s : CarouselState) : CarouselState :=
  if !s.isDragging then s
  else
    let s1 := { s with isDragging := false }
    let deltaX := s1.currentTranslate - s1.prevTranslate
    let s2 :=
      if 40 ≤ |deltaX| then
        let next := if 0 < deltaX then s1.currentIndex - 1 else s1.currentIndex + 1
        { s1 with
          currentIndex := next
          currentTranslate := -next * w
          isTransitioning := true }
      else
        { s1 with currentTranslate := s1.prevTranslate }
    startAutoSlide { s2 with prevTranslate := s2.currentTranslate }

/-- `handleTouchStart`: same state effect as `handleMouseDown` (guarded
by `isTransitioning`, starts the session, stops the timer). -/
def handleTouchStart (x : Int) (s : CarouselState) : CarouselState :=
  if s.isTransitioning then s
  else
    stopAutoSlide { s with isDragging := true, hasMoved := false, startX := x }

/-- `handleTouchMove`: same state effect as `handleMouseMove`. -/
def handleTouchMove (x : Int) (s : CarouselState) : CarouselState :=
  if !s.isDragging then s
  else
    let deltaX := x - s.startX
    let s1 := if 5 < |deltaX| then { s with hasMoved := true } else s
    { s1 with currentTranslate := s1.prevTranslate + deltaX }

/-- `handleTouchEnd` simply calls `handleMouseUp`. -/
def handleTouchEnd (w : Int) (s : CarouselState) : CarouselState :=
  handleMouseUp w s

/-- JS falsiness of the optional landing page: `!landingPage` is true
when the value is `undefined` or the empty string. -/
def strFalsy : Option String → Bool
  | none => true
  | some p => p == ""

/-- `handleSlideClick(landingPage)`: returns the page passed to
`window.open(landingPage, blank)`, or `none` when the click is a no-op
(`hasMoved || !landingPage`). -/
def handleSlideClick (lp : Option String) (s : CarouselState) : Option String :=
  if s.hasMoved || strFalsy lp then none else lp

/-- The `useEffect` keyed on `currentIndex`: when not dragging, re-derives
both translate refs from the index (`-currentIndex * slideWidth`).  (It
also copies `currentIndex` into `currentIndexRef`, a no-op here since the
pair is one field.) -/
def syncIndexEffect (w : Int) (s : CarouselState) : CarouselState :=
  if !s.isDragging then
    { s with currentTranslate := -s.currentIndex * w, prevTranslate := -s.currentIndex * w }
  else s

/-- `updatePosition` (mount/resize listener): unconditionally re-derives
both translate refs from the current index with the freshly measured
width. -/
def updatePosition (w : Int) (s : CarouselState) : CarouselState :=
  { s with currentTranslate := -s.currentIndex * w, prevTranslate := -s.currentIndex * w }

/-- The driving inputs of the controller.  Width-measuring handlers carry
the measured slide width; pointer handlers carry the pointer x. -/
inductive Event where
  | timerFire (w : Int)
  | transitionEnd (w : Int)
  | mouseDown (x : Int)
  | mouseMove (x : Int)
  | mouseUp (w : Int)
  | touchStart (x : Int)
  | touchMove (x : Int)
  | touchEnd (w : Int)
  | mouseEnter
  | mouseLeave
  | indexSync (w : Int)
  | resize (w : Int)
deriving DecidableEq, Repr

/-- Dispatch of one event to its handler.  `mouseEnter` stops and
`mouseLeave` (re)starts the auto-slide timer, exactly as wired on the
carousel div; the mount effect's `startAutoSlide` is the `mouseLeave`
step from the initial state. -/
def stepEvent (N K : Nat) : Event → CarouselState → CarouselState
  | .timerFire w => nextSlide w
  | .transitionEnd w => handleTransitionEnd N K w
  | .mouseDown x => handleMouseDown x
  | .mouseMove x => handleMouseMove x
  | .mouseUp w => handleMouseUp w
  | .touchStart x => handleTouchStart x
  | .touchMove x => handleTouchMove x
  | .touchEnd w => handleTouchEnd w
  | .mouseEnter => stopAutoSlide
  | .mouseLeave => startAutoSlide
  | .indexSync w => syncIndexEffect w
  | .resize w => updatePosition w

/-- States reachable from the freshly mounted component by any sequence
of events. -/
inductive Reachable (N K : Nat) : CarouselState → Prop where
  | init : Reachable N K (initState K)
  | step : ∀ (s : CarouselState) (e : Event), Reachable N K s →
      Reachable N K (stepEvent N K e s)

/-- Modelled from the spec: the track-model contract
`correctBoundary(index, sourceLength, K) -> realIndex | null` — a
replacement index `K + (index - sourceLength - K)` when
`index >= K + sourceLength`, a replacement `sourceLength + index` when
`index < K`, and `null` otherwise.  (In the code this rewrite lives
inline in `handleTransitionEnd`.) -/
def correctBoundary (index : Int) (N K : Nat) : Option Int :=
  if (K : Int) + N ≤ index then some ((K : Int) + (index - N - K))
  else if index < (K : Int) then some ((N : Int) + index)
  else none

/-- Sample items used to witness the padded-sequence properties. -/
def sampleItems : List CarouselItem :=
  [⟨1, "a", "a.png", some "https://a.example"⟩,
   ⟨2, "b", "b.png", none⟩,
   ⟨3, "c", "c.png", some "https://c.example"⟩]

/-- A drag session that has moved the pointer 40px right of the pre-drag
offset (boundary-equal delta). -/
def dragState40 : CarouselState :=
  { currentIndex := 4
    isDragging := true
    hasMoved := true
    isTransitioning := false
    startX := 100
    currentTranslate := 40
    prevTranslate := 0
    timerRef := none
    liveTimers := []
    nextTimerId := 1 }

/-- A drag session 39px right of the pre-drag offset. -/
def dragState39 : CarouselState :=
  { dragState40 with currentTranslate := 39 }

/-- A whole drag-move phase: the session state after a sequence of
pointer x-coordinates has been fed to `handleMouseMove`. -/
def dragMoves (xs : List Int) (s : CarouselState) : CarouselState :=
  xs.foldl (fun s x => handleMouseMove x s) s

/-- A state currently animating a transition. -/
def transState : CarouselState :=
  { initState 3 with isTransitioning := true }

/-- Dragging and Transitioning are mutually exclusive. -/
def MutexInv (s : CarouselState) : Prop :=
  s.isDragging = false ∨ s.isTransitioning = false

/-- Position range: one step past the real range while a transition is
pending, inside the real range `[K, K+N)` otherwise. -/
def RangeInv (N K : Nat) (s : CarouselState) : Prop :=
  (s.isTransitioning = true →
    (K : Int) - 1 ≤ s.currentIndex ∧ s.currentIndex ≤ (K : Int) + N) ∧
  (s.isTransitioning = false →
    (K : Int) ≤ s.currentIndex ∧ s.currentIndex < (K : Int) + N)

/-- The live intervals are exactly the one the ref holds (none when the
ref is empty). -/
def TimerInv (s : CarouselState) : Prop :=
  (∀ t, s.timerRef = some t → s.liveTimers = [t]) ∧
  (s.timerRef = none → s.liveTimers = [])

/-! ### Basic handler facts -/

theorem handleTouchStart_eq_mouseDown (x : Int) (s : CarouselState) :
    handleTouchStart x s = handleMouseDown x s := rfl

theorem handleTouchMove_eq_mouseMove (x : Int) (s : CarouselState) :
    handleTouchMove x s = handleMouseMove x s := rfl

/-- The index rewrite `handleTransitionEnd` performs is exactly
`correctBoundary` applied to the current position (identity when the
correction returns `null`). -/
theorem handleTransitionEnd_currentIndex (N K : Nat) (w : Int) (s : CarouselState) :
    (handleTransitionEnd N K w s).currentIndex
      = (correctBoundary s.currentIndex N K).getD s.currentIndex := by
  simp only [handleTransitionEnd, correctBoundary]
  split_ifs <;> simp_all <;> omega

/-- Claim C1: for every padded index, source length `N` and clone count
`K`, the correction returns `K + (index - N - K)` when `index >= K + N`,
returns `N + index` when `index < K`, and returns null otherwise; and
this is exactly the rewrite `handleTransitionEnd` applies to the current
position after a transition ends. -/
theorem boundary_correction_cases (index : Int) (N K : Nat) :
    ((K : Int) + N ≤ index →
      correctBoundary index N K = some ((K : Int) + (index - N - K))) ∧
    (index < (K : Int) →
      correctBoundary index N K = some ((N : Int) + index)) ∧
    ((K : Int) ≤ index → index < (K : Int) + N →
      correctBoundary index N K = none) ∧
    (∀ (s : CarouselState) (w : Int),
      (handleTransitionEnd N K w s).currentIndex
        = (correctBoundary s.currentIndex N K).getD s.currentIndex) := by
  refine ⟨?_, ?_, ?_, fun s w => handleTransitionEnd_currentIndex N K w s⟩
  · intro h; simp [correctBoundary, h]
  · intro h
    have h' : ¬ ((K : Int) + N ≤ index) := by omega
    simp [correctBoundary, h, h']
  · intro h1 h2
    have h1' : ¬ ((K : Int) + N ≤ index) := by omega
    have h2' : ¬ (index < (K : Int)) := by omega
    simp [correctBoundary, h1', h2']

theorem boundary_correction_cases_witness :
    correctBoundary 10 6 3 = some ((3 : Int) + (10 - 6 - 3)) ∧
    correctBoundary 1 6 3 = some ((6 : Int) + 1) ∧
    correctBoundary 4 6 3 = none ∧
    (handleTransitionEnd 6 3 300 { initState 3 with currentIndex := 10 }).currentIndex
      = (correctBoundary ({ initState 3 with currentIndex := 10 } : CarouselState).currentIndex
          6 3).getD ({ initState 3 with currentIndex := 10 } : CarouselState).currentIndex :=
  ⟨(boundary_correction_cases 10 6 3).1 (by decide),
   (boundary_correction_cases 1 6 3).2.1 (by decide),
   (boundary_correction_cases 4 6 3).2.2.1 (by decide) (by decide),
   (boundary_correction_cases 10 6 3).2.2.2 { initState 3 with currentIndex := 10 } 300⟩

/-- Claim C5: for every index in `[0, N + 2K)` with `N >= K`, when the
boundary correction returns a replacement index, applying the correction
to the replacement returns null. -/
theorem correctBoundary_idempotent (index : Int) (N K : Nat) (hNK : K ≤ N)
    (h0 : 0 ≤ index) (hub : index < (N : Int) + 2 * K)
    (r : Int) (hr : correctBoundary index N K = some r) :
    correctBoundary r N K = none := by
  unfold correctBoundary at hr ⊢
  split_ifs at hr with h1 h2 <;> injection hr with hr <;> subst hr <;>
    split_ifs <;> (try rfl) <;> (exfalso; omega)

theorem correctBoundary_idempotent_witness :
    correctBoundary ((3 : Int) + (10 - 6 - 3)) 6 3 = none :=
  correctBoundary_idempotent 10 6 3 (by decide) (by decide) (by decide)
    ((3 : Int) + (10 - 6 - 3)) (by decide)

/-- Claim C2: for a source list of length `N >= K`, the padded sequence
has length `N + 2K`, its indices `[K, K+N)` equal the source list in
order, its first `K` entries are the last `K` source items in order, and
its last `K` entries are the first `K` source items in order. -/
theorem clonedItems_padded (items : List CarouselItem) (K : Nat)
    (h : K ≤ items.length) :
    (clonedItems items K).length = items.length + 2 * K ∧
    (∀ i, i < items.length → (clonedItems items K)[K + i]? = items[i]?) ∧
    (∀ i, i < K →
      (clonedItems items K)[i]? = items[items.length - K + i]?) ∧
    (∀ i, i < K →
      (clonedItems items K)[K + items.length + i]? = items[i]?) := by
  have hd : (items.drop (items.length - K)).length = K := by
    rw [List.length_drop]; omega
  refine ⟨?_, ?_, ?_, ?_⟩
  · simp [clonedItems]; omega
  · intro i hi
    rw [clonedItems, List.append_assoc,
      List.getElem?_append_right (by rw [hd]; omega), hd]
    have hKi : K + i - K = i := by omega
    rw [hKi, List.getElem?_append, if_pos hi]
  · intro i hi
    rw [clonedItems, List.append_assoc, List.getElem?_append,
      if_pos (by rw [hd]; omega), List.getElem?_drop]
  · intro i hi
    rw [clonedItems, List.append_assoc,
      List.getElem?_append_right (by rw [hd]; omega), hd]
    have h1 : K + items.length + i - K = items.length + i := by omega
    rw [h1, List.getElem?_append_right (by omega)]
    have h2 : items.length + i - items.length = i := by omega
    rw [h2, List.getElem?_take, if_pos hi]

theorem clonedItems_padded_witness :
    (clonedItems sampleItems 2).length = sampleItems.length + 2 * 2 ∧
    (clonedItems sampleItems 2)[2 + 1]? = sampleItems[1]? ∧
    (clonedItems sampleItems 2)[1]? = sampleItems[sampleItems.length - 2 + 1]? ∧
    (clonedItems sampleItems 2)[2 + sampleItems.length + 1]? = sampleItems[1]? :=
  ⟨(clonedItems_padded sampleItems 2 (by decide)).1,
   (clonedItems_padded sampleItems 2 (by decide)).2.1 1 (by decide),
   (clonedItems_padded sampleItems 2 (by decide)).2.2.1 1 (by decide),
   (clonedItems_padded sampleItems 2 (by decide)).2.2.2 1 (by decide)⟩

/-- Claim C3: on release while dragging, with net delta
`d = currentTranslate - prevTranslate`: if `|d| >= 40` (boundary-equal
included) the position moves by exactly one (down for `d > 0`, up for
`d < 0`), the offset becomes `-(new position) * slideWidth` and the
controller enters Transitioning; if `|d| < 40` the offset snaps back to
the pre-drag value and position and transition flag are unchanged. -/
theorem handleMouseUp_release_outcome (s : CarouselState) (w : Int)
    (hd : s.isDragging = true) :
    (40 ≤ |s.currentTranslate - s.prevTranslate| →
      ((0 < s.currentTranslate - s.prevTranslate →
         (handleMouseUp w s).currentIndex = s.currentIndex - 1) ∧
       (s.currentTranslate - s.prevTranslate < 0 →
         (handleMouseUp w s).currentIndex = s.currentIndex + 1) ∧
       (handleMouseUp w s).currentTranslate
         = -(handleMouseUp w s).currentIndex * w ∧
       (handleMouseUp w s).isTransitioning = true)) ∧
    (|s.currentTranslate - s.prevTranslate| < 40 →
      ((handleMouseUp w s).currentTranslate = s.prevTranslate ∧
       (handleMouseUp w s).currentIndex = s.currentIndex ∧
       (handleMouseUp w s).isTransitioning = s.isTransitioning)) := by
  constructor
  · intro h40
    refine ⟨fun hpos => ?_, fun hneg => ?_, ?_, ?_⟩
    · simp [handleMouseUp, startAutoSlide, hd, h40, hpos]
    · have hpos : ¬ (0 < s.currentTranslate - s.prevTranslate) := by omega
      simp [handleMouseUp, startAutoSlide, hd, h40, hpos]
    · by_cases hpos : 0 < s.currentTranslate - s.prevTranslate <;>
        simp [handleMouseUp, startAutoSlide, hd, h40, hpos]
    · by_cases hpos : 0 < s.currentTranslate - s.prevTranslate <;>
        simp [handleMouseUp, startAutoSlide, hd, h40, hpos]
  · intro h40
    have h40' : ¬ (40 ≤ |s.currentTranslate - s.prevTranslate|) := by omega
    simp [handleMouseUp, startAutoSlide, hd, h40']

theorem handleMouseUp_release_outcome_witness :
    ((handleMouseUp 300 dragState40).currentIndex = dragState40.currentIndex - 1 ∧
     (handleMouseUp 300 dragState40).isTransitioning = true) ∧
    ((handleMouseUp 300 dragState39).currentTranslate = dragState39.prevTranslate ∧
     (handleMouseUp 300 dragState39).currentIndex = dragState39.currentIndex) :=
  ⟨⟨((handleMouseUp_release_outcome dragState40 300 (by decide)).1 (by decide)).1 (by decide),
    ((handleMouseUp_release_outcome dragState40 300 (by decide)).1 (by decide)).2.2.2⟩,
   ⟨((handleMouseUp_release_outcome dragState39 300 (by decide)).2 (by decide)).1,
    ((handleMouseUp_release_outcome dragState39 300 (by decide)).2 (by decide)).2.1⟩⟩

/-- Claim C7: the position is initialized to `K` (`useState(CLONE_COUNT)`),
and one timer fire while idle (not dragging, not transitioning) moves the
position to `K + 1`, sets the offset to `-(K+1) * slideWidth`, and enters
Transitioning. -/
theorem auto_advance_step (K : Nat) (w : Int) (s : CarouselState)
    (hi : s.currentIndex = (K : Int)) (hd : s.isDragging = false)
    (ht : s.isTransitioning = false) :
    (initState K).currentIndex = (K : Int) ∧
    (nextSlide w s).currentIndex = (K : Int) + 1 ∧
    (nextSlide w s).currentTranslate = -((K : Int) + 1) * w ∧
    (nextSlide w s).isTransitioning = true := by
  refine ⟨rfl, ?_, ?_, ?_⟩ <;> simp [nextSlide, hd, ht, hi]

theorem auto_advance_step_witness :
    (initState 3).currentIndex = ((3 : Nat) : Int) ∧
    (nextSlide 300 (initState 3)).currentIndex = ((3 : Nat) : Int) + 1 ∧
    (nextSlide 300 (initState 3)).currentTranslate = -(((3 : Nat) : Int) + 1) * 300 ∧
    (nextSlide 300 (initState 3)).isTransitioning = true :=
  auto_advance_step 3 300 (initState 3) (by decide) (by decide) (by decide)

/-- Claim C10: with no active drag session, pointer/touch moves and
pointer/touch ups leave the whole controller state unchanged. -/
theorem spurious_pointer_events_noop (s : CarouselState) (x y w v : Int)
    (hd : s.isDragging = false) :
    handleMouseMove x s = s ∧ handleMouseUp w s = s ∧
    handleTouchMove y s = s ∧ handleTouchEnd v s = s := by
  refine ⟨?_, ?_, ?_, ?_⟩ <;>
    simp [handleMouseMove, handleMouseUp, handleTouchMove, handleTouchEnd, hd]

theorem spurious_pointer_events_noop_witness :
    handleMouseMove 7 (initState 3) = initState 3 ∧
    handleMouseUp 300 (initState 3) = initState 3 ∧
    handleTouchMove 8 (initState 3) = initState 3 ∧
    handleTouchEnd 301 (initState 3) = initState 3 :=
  spurious_pointer_events_noop (initState 3) 7 8 300 301 (by decide)

theorem handleMouseMove_startX (x : Int) (s : CarouselState) :
    (handleMouseMove x s).startX = s.startX := by
  unfold handleMouseMove
  by_cases hd : (!s.isDragging) = true <;>
    by_cases h5 : 5 < |x - s.startX| <;>
    simp [hd, h5]

theorem handleMouseMove_hasMoved_small (x : Int) (s : CarouselState)
    (hm : s.hasMoved = false) (hx : |x - s.startX| ≤ 5) :
    (handleMouseMove x s).hasMoved = false := by
  unfold handleMouseMove
  have h5 : ¬ (5 < |x - s.startX|) := by omega
  by_cases hd : (!s.isDragging) = true <;> simp [hd, h5, hm]

theorem dragMoves_hasMoved_false (xs : List Int) (s : CarouselState)
    (hm : s.hasMoved = false) (hall : ∀ y ∈ xs, |y - s.startX| ≤ 5) :
    (dragMoves xs s).hasMoved = false := by
  induction xs generalizing s with
  | nil => exact hm
  | cons x xs ih =>
    have hx : |x - s.startX| ≤ 5 := hall x (by simp)
    refine ih (handleMouseMove x s) (handleMouseMove_hasMoved_small x s hm hx) ?_
    intro y hy
    rw [handleMouseMove_startX]
    exact hall y (by simp [hy])

/-- Claim C6: in a drag session the moved flag starts false
(`handleMouseDown` resets it), is set by any move whose absolute delta
exceeds 5px, and once set stays set; for any sequence of moves whose
deltas all stay within 5px the flag remains false, so a subsequent click
opens the landing page when one exists (present and non-empty — the code
tests JS truthiness `!landingPage`); a set flag or an absent landing page
makes the click a no-op. -/
theorem moved_flag_click_suppression :
    (∀ (s : CarouselState) (x : Int), s.isTransitioning = false →
      (handleMouseDown x s).hasMoved = false) ∧
    (∀ (s : CarouselState) (y : Int), s.hasMoved = true →
      (handleMouseMove y s).hasMoved = true) ∧
    (∀ (s : CarouselState) (y : Int), s.isDragging = true →
      5 < |y - s.startX| → (handleMouseMove y s).hasMoved = true) ∧
    (∀ (s : CarouselState) (xs : List Int), s.hasMoved = false →
      (∀ y ∈ xs, |y - s.startX| ≤ 5) → (dragMoves xs s).hasMoved = false) ∧
    (∀ (s : CarouselState) (lp : Option String), s.hasMoved = false →
      strFalsy lp = false → handleSlideClick lp s = lp) ∧
    (∀ (s : CarouselState) (lp : Option String), s.hasMoved = true →
      handleSlideClick lp s = none) ∧
    (∀ (s : CarouselState), handleSlideClick none s = none) := by
  refine ⟨?_, ?_, ?_, fun s xs hm hall => dragMoves_hasMoved_false xs s hm hall, ?_, ?_, ?_⟩
  · intro s x ht
    unfold handleMouseDown stopAutoSlide
    cases htr : s.timerRef <;> simp [ht]
  · intro s y hm
    unfold handleMouseMove
    by_cases hd : (!s.isDragging) = true <;>
      by_cases h5 : 5 < |y - s.startX| <;>
      simp [hd, h5, hm]
  · intro s y hd h5
    unfold handleMouseMove
    simp [hd, h5]
  · intro s lp hm hlp
    simp [handleSlideClick, hm, hlp]
  · intro s lp hm
    simp [handleSlideClick, hm]
  · intro s
    simp [handleSlideClick, strFalsy]

theorem moved_flag_click_suppression_witness :
    (handleMouseDown 100 (initState 3)).hasMoved = false ∧
    (dragMoves [102, 98, 104] (handleMouseDown 100 (initState 3))).hasMoved = false ∧
    handleSlideClick (some "https://a.example")
      (dragMoves [102, 98, 104] (handleMouseDown 100 (initState 3)))
      = some "https://a.example" ∧
    handleSlideClick (some "https://a.example") dragState40 = none ∧
    handleSlideClick none (initState 3) = none :=
  ⟨moved_flag_click_suppression.1 (initState 3) 100 (by decide),
   moved_flag_click_suppression.2.2.2.1 (handleMouseDown 100 (initState 3))
     [102, 98, 104] (by decide) (by decide),
   moved_flag_click_suppression.2.2.2.2.1
     (dragMoves [102, 98, 104] (handleMouseDown 100 (initState 3)))
     (some "https://a.example") (by decide) (by decide),
   moved_flag_click_suppression.2.2.2.2.2.1 dragState40
     (some "https://a.example") (by decide),
   moved_flag_click_suppression.2.2.2.2.2.2 (initState 3)⟩

/-! ### Invariants of the reachable states -/

@[simp] theorem stopAutoSlide_currentIndex (s : CarouselState) :
    (stopAutoSlide s).currentIndex = s.currentIndex := by
  unfold stopAutoSlide; cases htr : s.timerRef <;> simp

@[simp] theorem stopAutoSlide_isDragging (s : CarouselState) :
    (stopAutoSlide s).isDragging = s.isDragging := by
  unfold stopAutoSlide; cases htr : s.timerRef <;> simp

@[simp] theorem stopAutoSlide_hasMoved (s : CarouselState) :
    (stopAutoSlide s).hasMoved = s.hasMoved := by
  unfold stopAutoSlide; cases htr : s.timerRef <;> simp

@[simp] theorem stopAutoSlide_isTransitioning (s : CarouselState) :
    (stopAutoSlide s).isTransitioning = s.isTransitioning := by
  unfold stopAutoSlide; cases htr : s.timerRef <;> simp

@[simp] theorem stopAutoSlide_startX (s : CarouselState) :
    (stopAutoSlide s).startX = s.startX := by
  unfold stopAutoSlide; cases htr : s.timerRef <;> simp

@[simp] theorem stopAutoSlide_currentTranslate (s : CarouselState) :
    (stopAutoSlide s).currentTranslate = s.currentTranslate := by
  unfold stopAutoSlide; cases htr : s.timerRef <;> simp

@[simp] theorem stopAutoSlide_prevTranslate (s : CarouselState) :
    (stopAutoSlide s).prevTranslate = s.prevTranslate := by
  unfold stopAutoSlide; cases htr : s.timerRef <;> simp

@[simp] theorem stopAutoSlide_timerRef (s : CarouselState) :
    (stopAutoSlide s).timerRef = none := by
  unfold stopAutoSlide; cases htr : s.timerRef <;> simp [htr]

@[simp] theorem startAutoSlide_currentIndex (s : CarouselState) :
    (startAutoSlide s).currentIndex = s.currentIndex := rfl

@[simp] theorem startAutoSlide_isDragging (s : CarouselState) :
    (startAutoSlide s).isDragging = s.isDragging := rfl

@[simp] theorem startAutoSlide_hasMoved (s : CarouselState) :
    (startAutoSlide s).hasMoved = s.hasMoved := rfl

@[simp] theorem startAutoSlide_isTransitioning (s : CarouselState) :
    (startAutoSlide s).isTransitioning = s.isTransitioning := rfl

@[simp] theorem startAutoSlide_startX (s : CarouselState) :
    (startAutoSlide s).startX = s.startX := rfl

@[simp] theorem startAutoSlide_currentTranslate (s : CarouselState) :
    (startAutoSlide s).currentTranslate = s.currentTranslate := rfl

@[simp] theorem startAutoSlide_prevTranslate (s : CarouselState) :
    (startAutoSlide s).prevTranslate = s.prevTranslate := rfl

@[simp] theorem startAutoSlide_timerRef (s : CarouselState) :
    (startAutoSlide s).timerRef = some s.nextTimerId := rfl

@[simp] theorem nextSlide_timerRef (w : Int) (s : CarouselState) :
    (nextSlide w s).timerRef = s.timerRef := by
  unfold nextSlide
  by_cases hc : (s.isDragging || s.isTransitioning) = true <;> simp [hc]

@[simp] theorem nextSlide_liveTimers (w : Int) (s : CarouselState) :
    (nextSlide w s).liveTimers = s.liveTimers := by
  unfold nextSlide
  by_cases hc : (s.isDragging || s.isTransitioning) = true <;> simp [hc]

@[simp] theorem handleTransitionEnd_isTransitioning (N K : Nat) (w : Int)
    (s : CarouselState) :
    (handleTransitionEnd N K w s).isTransitioning = false := by
  simp only [handleTransitionEnd]
  split_ifs <;> rfl

@[simp] theorem handleTransitionEnd_isDragging (N K : Nat) (w : Int)
    (s : CarouselState) :
    (handleTransitionEnd N K w s).isDragging = s.isDragging := by
  simp only [handleTransitionEnd]
  split_ifs <;> rfl

@[simp] theorem handleTransitionEnd_timerRef (N K : Nat) (w : Int)
    (s : CarouselState) :
    (handleTransitionEnd N K w s).timerRef = s.timerRef := by
  simp only [handleTransitionEnd]
  split_ifs <;> rfl

@[simp] theorem handleTransitionEnd_liveTimers (N K : Nat) (w : Int)
    (s : CarouselState) :
    (handleTransitionEnd N K w s).liveTimers = s.liveTimers := by
  simp only [handleTransitionEnd]
  split_ifs <;> rfl

@[simp] theorem handleMouseMove_isDragging (x : Int) (s : CarouselState) :
    (handleMouseMove x s).isDragging = s.isDragging := by
  unfold handleMouseMove
  by_cases hd : (!s.isDragging) = true <;>
    by_cases h5 : 5 < |x - s.startX| <;> simp [hd, h5]

@[simp] theorem handleMouseMove_isTransitioning (x : Int) (s : CarouselState) :
    (handleMouseMove x s).isTransitioning = s.isTransitioning := by
  unfold handleMouseMove
  by_cases hd : (!s.isDragging) = true <;>
    by_cases h5 : 5 < |x - s.startX| <;> simp [hd, h5]

@[simp] theorem handleMouseMove_currentIndex (x : Int) (s : CarouselState) :
    (handleMouseMove x s).currentIndex = s.currentIndex := by
  unfold handleMouseMove
  by_cases hd : (!s.isDragging) = true <;>
    by_cases h5 : 5 < |x - s.startX| <;> simp [hd, h5]

@[simp] theorem handleMouseMove_timerRef (x : Int) (s : CarouselState) :
    (handleMouseMove x s).timerRef = s.timerRef := by
  unfold handleMouseMove
  by_cases hd : (!s.isDragging) = true <;>
    by_cases h5 : 5 < |x - s.startX| <;> simp [hd, h5]

@[simp] theorem handleMouseMove_liveTimers (x : Int) (s : CarouselState) :
    (handleMouseMove x s).liveTimers = s.liveTimers := by
  unfold handleMouseMove
  by_cases hd : (!s.isDragging) = true <;>
    by_cases h5 : 5 < |x - s.startX| <;> simp [hd, h5]

@[simp] theorem handleMouseUp_isDragging (w : Int) (s : CarouselState) :
    (handleMouseUp w s).isDragging = false := by
  unfold handleMouseUp
  by_cases hd : (!s.isDragging) = true
  · simp at hd; simp [hd]
  · by_cases h40 : 40 ≤ |s.currentTranslate - s.prevTranslate| <;>
      by_cases hpos : 0 < s.currentTranslate - s.prevTranslate <;>
      simp [hd, h40, hpos]

@[simp] theorem syncIndexEffect_isDragging (w : Int) (s : CarouselState) :
    (syncIndexEffect w s).isDragging = s.isDragging := by
  unfold syncIndexEffect; split_ifs <;> rfl

@[simp] theorem syncIndexEffect_isTransitioning (w : Int) (s : CarouselState) :
    (syncIndexEffect w s).isTransitioning = s.isTransitioning := by
  unfold syncIndexEffect; split_ifs <;> rfl

@[simp] theorem syncIndexEffect_currentIndex (w : Int) (s : CarouselState) :
    (syncIndexEffect w s).currentIndex = s.currentIndex := by
  unfold syncIndexEffect; split_ifs <;> rfl

@[simp] theorem syncIndexEffect_timerRef (w : Int) (s : CarouselState) :
    (syncIndexEffect w s).timerRef = s.timerRef := by
  unfold syncIndexEffect; split_ifs <;> rfl

@[simp] theorem syncIndexEffect_liveTimers (w : Int) (s : CarouselState) :
    (syncIndexEffect w s).liveTimers = s.liveTimers := by
  unfold syncIndexEffect; split_ifs <;> rfl

@[simp] theorem updatePosition_isDragging (w : Int) (s : CarouselState) :
    (updatePosition w s).isDragging = s.isDragging := rfl

@[simp] theorem updatePosition_isTransitioning (w : Int) (s : CarouselState) :
    (updatePosition w s).isTransitioning = s.isTransitioning := rfl

@[simp] theorem updatePosition_currentIndex (w : Int) (s : CarouselState) :
    (updatePosition w s).currentIndex = s.currentIndex := rfl

@[simp] theorem updatePosition_timerRef (w : Int) (s : CarouselState) :
    (updatePosition w s).timerRef = s.timerRef := rfl

@[simp] theorem updatePosition_liveTimers (w : Int) (s : CarouselState) :
    (updatePosition w s).liveTimers = s.liveTimers := rfl

theorem timerInv_of_fields (s s2 : CarouselState)
    (h1 : s2.timerRef = s.timerRef) (h2 : s2.liveTimers = s.liveTimers)
    (h : TimerInv s) : TimerInv s2 := by
  constructor
  · intro t ht
    rw [h1] at ht
    rw [h2]
    exact h.1 t ht
  · intro ht
    rw [h1] at ht
    rw [h2]
    exact h.2 ht

theorem startAutoSlide_liveTimers_of_inv (s : CarouselState) (h : TimerInv s) :
    (startAutoSlide s).liveTimers = [s.nextTimerId] := by
  unfold startAutoSlide
  cases htr : s.timerRef with
  | none => simp [h.2 htr]
  | some t0 => simp [h.1 t0 htr]

theorem timerInv_startAutoSlide (s : CarouselState) (h : TimerInv s) :
    TimerInv (startAutoSlide s) := by
  have hl := startAutoSlide_liveTimers_of_inv s h
  constructor
  · intro t ht
    rw [startAutoSlide_timerRef] at ht
    injection ht with ht
    rw [hl, ht]
  · intro ht
    rw [startAutoSlide_timerRef] at ht
    cases ht

theorem timerInv_stopAutoSlide (s : CarouselState) (h : TimerInv s) :
    TimerInv (stopAutoSlide s) := by
  constructor
  · intro t ht
    rw [stopAutoSlide_timerRef] at ht
    cases ht
  · intro _
    unfold stopAutoSlide
    cases htr : s.timerRef with
    | none => simp [h.2 htr]
    | some t0 => simp [h.1 t0 htr]

theorem timerInv_handleMouseDown (x : Int) (s : CarouselState)
    (h : TimerInv s) : TimerInv (handleMouseDown x s) := by
  unfold handleMouseDown
  by_cases ht : s.isTransitioning = true
  · simpa [ht] using h
  · rw [if_neg ht]
    exact timerInv_stopAutoSlide _ (timerInv_of_fields s _ rfl rfl h)

theorem timerInv_handleMouseUp (w : Int) (s : CarouselState)
    (h : TimerInv s) : TimerInv (handleMouseUp w s) := by
  unfold handleMouseUp
  by_cases hd : (!s.isDragging) = true
  · simpa [hd] using h
  · rw [if_neg hd]
    by_cases h40 : 40 ≤ |s.currentTranslate - s.prevTranslate| <;>
      by_cases hpos : 0 < s.currentTranslate - s.prevTranslate <;>
      simp only [h40, hpos, if_true, if_false] <;>
      exact timerInv_startAutoSlide _ (timerInv_of_fields s _ rfl rfl h)

theorem timerInv_stepEvent (N K : Nat) (e : Event) (s : CarouselState)
    (h : TimerInv s) : TimerInv (stepEvent N K e s) := by
  cases e with
  | timerFire w =>
    exact timerInv_of_fields s _ (nextSlide_timerRef w s) (nextSlide_liveTimers w s) h
  | transitionEnd w =>
    exact timerInv_of_fields s _ (handleTransitionEnd_timerRef N K w s)
      (handleTransitionEnd_liveTimers N K w s) h
  | mouseDown x => exact timerInv_handleMouseDown x s h
  | mouseMove x =>
    exact timerInv_of_fields s _ (handleMouseMove_timerRef x s)
      (handleMouseMove_liveTimers x s) h
  | mouseUp w => exact timerInv_handleMouseUp w s h
  | touchStart x =>
    rw [stepEvent, handleTouchStart_eq_mouseDown]
    exact timerInv_handleMouseDown x s h
  | touchMove x =>
    rw [stepEvent, handleTouchMove_eq_mouseMove]
    exact timerInv_of_fields s _ (handleMouseMove_timerRef x s)
      (handleMouseMove_liveTimers x s) h
  | touchEnd w => exact timerInv_handleMouseUp w s h
  | mouseEnter => exact timerInv_stopAutoSlide s h
  | mouseLeave => exact timerInv_startAutoSlide s h
  | indexSync w =>
    exact timerInv_of_fields s _ (syncIndexEffect_timerRef w s)
      (syncIndexEffect_liveTimers w s) h
  | resize w =>
    exact timerInv_of_fields s _ (updatePosition_timerRef w s)
      (updatePosition_liveTimers w s) h

theorem timerInv_reachable (N K : Nat) (s : CarouselState)
    (h : Reachable N K s) : TimerInv s := by
  induction h with
  | init =>
    constructor
    · intro t ht; cases ht
    · intro _; rfl
  | step s e _ ih => exact timerInv_stepEvent N K e s ih

theorem mutexInv_handleMouseDown (x : Int) (s : CarouselState)
    (h : MutexInv s) : MutexInv (handleMouseDown x s) := by
  unfold handleMouseDown
  by_cases ht : s.isTransitioning = true
  · simpa [ht] using h
  · simp only [Bool.not_eq_true] at ht
    right
    simp [ht]

theorem mutexInv_handleMouseUp (w : Int) (s : CarouselState) :
    MutexInv (handleMouseUp w s) := by
  left
  exact handleMouseUp_isDragging w s

theorem mutexInv_stepEvent (N K : Nat) (e : Event) (s : CarouselState)
    (h : MutexInv s) : MutexInv (stepEvent N K e s) := by
  unfold MutexInv at h ⊢
  cases e with
  | timerFire w =>
    simp only [stepEvent]
    unfold nextSlide
    by_cases hc : (s.isDragging || s.isTransitioning) = true
    · simpa [hc] using h
    · simp only [Bool.or_eq_true, not_or, Bool.not_eq_true] at hc
      simp [hc.1, hc.2]
  | transitionEnd w =>
    right
    simp [stepEvent]
  | mouseDown x => exact mutexInv_handleMouseDown x s h
  | mouseMove x => simpa [stepEvent] using h
  | mouseUp w => exact mutexInv_handleMouseUp w s
  | touchStart x =>
    rw [stepEvent, handleTouchStart_eq_mouseDown]
    exact mutexInv_handleMouseDown x s h
  | touchMove x => simpa [stepEvent, handleTouchMove_eq_mouseMove] using h
  | touchEnd w =>
    rw [stepEvent]
    exact mutexInv_handleMouseUp w s
  | mouseEnter => simpa [stepEvent] using h
  | mouseLeave => simpa [stepEvent] using h
  | indexSync w => simpa [stepEvent] using h
  | resize w => simpa [stepEvent] using h

theorem mutexInv_reachable (N K : Nat) (s : CarouselState)
    (h : Reachable N K s) : MutexInv s := by
  induction h with
  | init => left; rfl
  | step s e _ ih => exact mutexInv_stepEvent N K e s ih

theorem rangeInv_nextSlide (N K : Nat) (w : Int) (s : CarouselState)
    (hr : RangeInv N K s) : RangeInv N K (nextSlide w s) := by
  obtain ⟨hr1, hr2⟩ := hr
  unfold nextSlide
  by_cases hc : (s.isDragging || s.isTransitioning) = true
  · simpa [hc] using ⟨hr1, hr2⟩
  · simp only [Bool.or_eq_true, not_or, Bool.not_eq_true] at hc
    obtain ⟨h1, h2⟩ := hr2 hc.2
    unfold RangeInv
    simp [hc.1, hc.2]
    omega

theorem rangeInv_transitionEnd (N K : Nat) (hK : 1 ≤ K) (hN : K ≤ N)
    (w : Int) (s : CarouselState) (hr : RangeInv N K s) :
    RangeInv N K (handleTransitionEnd N K w s) := by
  obtain ⟨hr1, hr2⟩ := hr
  have hb : (K : Int) - 1 ≤ s.currentIndex ∧ s.currentIndex ≤ (K : Int) + N := by
    cases hb2 : s.isTransitioning
    · have := hr2 hb2; omega
    · exact hr1 hb2
  constructor
  · intro hh
    rw [handleTransitionEnd_isTransitioning] at hh
    cases hh
  · intro _
    rw [handleTransitionEnd_currentIndex]
    unfold correctBoundary
    split_ifs <;> simp <;> omega

theorem rangeInv_handleMouseDown (N K : Nat) (x : Int) (s : CarouselState)
    (hr : RangeInv N K s) : RangeInv N K (handleMouseDown x s) := by
  obtain ⟨hr1, hr2⟩ := hr
  unfold handleMouseDown
  by_cases ht : s.isTransitioning = true
  · simpa [ht] using ⟨hr1, hr2⟩
  · simp only [Bool.not_eq_true] at ht
    obtain ⟨h1, h2⟩ := hr2 ht
    unfold RangeInv
    simp [ht]
    omega

theorem rangeInv_handleMouseUp (N K : Nat) (w : Int) (s : CarouselState)
    (hm : MutexInv s) (hr : RangeInv N K s) :
    RangeInv N K (handleMouseUp w s) := by
  obtain ⟨hr1, hr2⟩ := hr
  by_cases hd : s.isDragging = true
  · have ht : s.isTransitioning = false := by
      rcases hm with hm1 | hm1
      · rw [hd] at hm1; cases hm1
      · exact hm1
    obtain ⟨h1, h2⟩ := hr2 ht
    have hd' : ¬ (!s.isDragging) = true := by simp [hd]
    unfold handleMouseUp RangeInv
    by_cases h40 : 40 ≤ |s.currentTranslate - s.prevTranslate| <;>
      by_cases hpos : 0 < s.currentTranslate - s.prevTranslate <;>
      simp [hd', h40, hpos, ht] <;>
      omega
  · simp only [Bool.not_eq_true] at hd
    have hid : handleMouseUp w s = s := by unfold handleMouseUp; simp [hd]
    rw [hid]
    exact ⟨hr1, hr2⟩

theorem rangeInv_stepEvent (N K : Nat) (hK : 1 ≤ K) (hN : K ≤ N)
    (e : Event) (s : CarouselState) (hm : MutexInv s) (hr : RangeInv N K s) :
    RangeInv N K (stepEvent N K e s) := by
  cases e with
  | timerFire w => exact rangeInv_nextSlide N K w s hr
  | transitionEnd w => exact rangeInv_transitionEnd N K hK hN w s hr
  | mouseDown x => exact rangeInv_handleMouseDown N K x s hr
  | mouseMove x =>
    simp only [stepEvent, RangeInv, handleMouseMove_isTransitioning,
      handleMouseMove_currentIndex]
    exact hr
  | mouseUp w => exact rangeInv_handleMouseUp N K w s hm hr
  | touchStart x =>
    rw [stepEvent, handleTouchStart_eq_mouseDown]
    exact rangeInv_handleMouseDown N K x s hr
  | touchMove x =>
    rw [stepEvent, handleTouchMove_eq_mouseMove]
    simp only [RangeInv, handleMouseMove_isTransitioning,
      handleMouseMove_currentIndex]
    exact hr
  | touchEnd w => exact rangeInv_handleMouseUp N K w s hm hr
  | mouseEnter =>
    simp only [stepEvent, RangeInv, stopAutoSlide_isTransitioning,
      stopAutoSlide_currentIndex]
    exact hr
  | mouseLeave =>
    simp only [stepEvent, RangeInv, startAutoSlide_isTransitioning,
      startAutoSlide_currentIndex]
    exact hr
  | indexSync w =>
    simp only [stepEvent, RangeInv, syncIndexEffect_isTransitioning,
      syncIndexEffect_currentIndex]
    exact hr
  | resize w =>
    simp only [stepEvent, RangeInv, updatePosition_isTransitioning,
      updatePosition_currentIndex]
    exact hr

theorem rangeInv_reachable (N K : Nat) (hK : 1 ≤ K) (hN : K ≤ N)
    (s : CarouselState) (h : Reachable N K s) : RangeInv N K s := by
  induction h with
  | init =>
    constructor
    · intro hh; cases hh
    · intro _
      unfold initState
      constructor
      · simp
      · simp
        omega
  | step s e hs ih =>
    exact rangeInv_stepEvent N K hK hN e s (mutexInv_reachable N K s hs) ih

/-- Claim C4: in every reachable state of the controller the position
stays within `[0, N + 2K)` (for a configuration with `1 <= K <= N`, as
the padded construction requires), and immediately after the
boundary-correction step at transition end the position lies in the
real-index range `[K, K + N)`. -/
theorem reachable_position_invariant (N K : Nat) (hK : 1 ≤ K) (hN : K ≤ N)
    (s : CarouselState) (hs : Reachable N K s) :
    (0 ≤ s.currentIndex ∧ s.currentIndex < (N : Int) + 2 * K) ∧
    (∀ w : Int,
      (K : Int) ≤ (handleTransitionEnd N K w s).currentIndex ∧
      (handleTransitionEnd N K w s).currentIndex < (K : Int) + N) := by
  have hr := rangeInv_reachable N K hK hN s hs
  constructor
  · have hb : (K : Int) - 1 ≤ s.currentIndex ∧ s.currentIndex ≤ (K : Int) + N := by
      cases hb2 : s.isTransitioning
      · have := hr.2 hb2; omega
      · exact hr.1 hb2
    omega
  · intro w
    have h2 := rangeInv_transitionEnd N K hK hN w s hr
    exact h2.2 (handleTransitionEnd_isTransitioning N K w s)

theorem reachable_position_invariant_witness :
    (0 ≤ (initState 3).currentIndex ∧
     (initState 3).currentIndex < ((6 : Nat) : Int) + 2 * 3) ∧
    (((3 : Nat) : Int) ≤ (handleTransitionEnd 6 3 300 (initState 3)).currentIndex ∧
     (handleTransitionEnd 6 3 300 (initState 3)).currentIndex < ((3 : Nat) : Int) + 6) :=
  ⟨(reachable_position_invariant 6 3 (by decide) (by decide) (initState 3)
      Reachable.init).1,
   (reachable_position_invariant 6 3 (by decide) (by decide) (initState 3)
      Reachable.init).2 300⟩

/-- Claim C8: a pointer/touch-down while Transitioning is ignored with no
state change, a timer fire while Dragging or Transitioning is a no-op,
and in no reachable state do Dragging and Transitioning hold together. -/
theorem driving_inputs_mutual_exclusion (N K : Nat) :
    (∀ (s : CarouselState) (x : Int), s.isTransitioning = true →
      handleMouseDown x s = s ∧ handleTouchStart x s = s) ∧
    (∀ (s : CarouselState) (w : Int),
      s.isDragging = true ∨ s.isTransitioning = true → nextSlide w s = s) ∧
    (∀ s : CarouselState, Reachable N K s →
      ¬ (s.isDragging = true ∧ s.isTransitioning = true)) := by
  refine ⟨?_, ?_, ?_⟩
  · intro s x ht
    refine ⟨?_, ?_⟩
    · unfold handleMouseDown; simp [ht]
    · unfold handleTouchStart; simp [ht]
  · intro s w hc
    unfold nextSlide
    rcases hc with hc | hc <;> simp [hc]
  · intro s hs hcontra
    rcases mutexInv_reachable N K s hs with h1 | h1
    · rw [hcontra.1] at h1; cases h1
    · rw [hcontra.2] at h1; cases h1

theorem driving_inputs_mutual_exclusion_witness :
    (handleMouseDown 5 transState = transState ∧
     handleTouchStart 5 transState = transState) ∧
    nextSlide 300 transState = transState ∧
    ¬ ((initState 3).isDragging = true ∧ (initState 3).isTransitioning = true) :=
  ⟨(driving_inputs_mutual_exclusion 6 3).1 transState 5 (by decide),
   (driving_inputs_mutual_exclusion 6 3).2.1 transState 300 (Or.inr (by decide)),
   (driving_inputs_mutual_exclusion 6 3).2.2 (initState 3) Reachable.init⟩

/-- Claim C9: in every reachable state at most one auto-advance interval
is live; (re)creating the timer from a reachable state leaves exactly one
live interval (the old one is cleared first), and stopping the timer
leaves the handle empty. -/
theorem single_timer_invariant (N K : Nat) :
    (∀ s : CarouselState, Reachable N K s → s.liveTimers.length ≤ 1) ∧
    (∀ s : CarouselState, Reachable N K s →
      (startAutoSlide s).liveTimers.length = 1) ∧
    (∀ s : CarouselState, (stopAutoSlide s).timerRef = none) := by
  refine ⟨?_, ?_, fun s => stopAutoSlide_timerRef s⟩
  · intro s hs
    have h := timerInv_reachable N K s hs
    cases htr : s.timerRef with
    | none => simp [h.2 htr]
    | some t => simp [h.1 t htr]
  · intro s hs
    have h := timerInv_reachable N K s hs
    rw [startAutoSlide_liveTimers_of_inv s h]
    rfl

theorem single_timer_invariant_witness :
    (initState 3).liveTimers.length ≤ 1 ∧
    (startAutoSlide (initState 3)).liveTimers.length = 1 ∧
    (stopAutoSlide (startAutoSlide (initState 3))).timerRef = none :=
  ⟨(single_timer_invariant 6 3).1 (initState 3) Reachable.init,
   (single_timer_invariant 6 3).2.1 (initState 3) Reachable.init,
   (single_timer_invariant 6 3).2.2 (startAutoSlide (initState 3))⟩
